import Mathlib

/-!
Shallow embedding of the centauri repository slice under verification:
the ics03 connection error module (ibc/modules/src/core/ics03_connection/error.rs)
and the relayer chain-backend dispatch (hyperspace/core/src/chain.rs),
together with the parts of the spec whose implementing code is outside this
slice, marked "Modelled from the spec".
-/

namespace Centauri

/-! ## Surrogate domain types

Identifier, payload and response types that the embedded code treats
opaquely (it never inspects them, only passes them along) are embedded as
simple inhabited types. -/

abbrev ClientId := String

abbrev ConnectionId := String

abbrev ChannelId := String

abbrev PortId := String

abbrev Timestamp := Nat

abbrev H256 := Nat

abbrev IbcEvent := String

abbrev UpdateType := Bool

abbrev Duration := Nat

abbrev ClientType := String

abbrev CommitmentPrefixBytes := List Nat

abbrev Signer := String

abbrev FinalityEvent := Nat

abbrev Counterparty := Nat

abbrev PacketInfo := Nat

abbrev PrefixedCoin := Nat

abbrev AnyClientState := Nat

abbrev AnyConsensusState := Nat

abbrev IdentifiedConnection := Nat

abbrev QueryConsensusStateResponse := Nat

abbrev QueryClientStateResponse := Nat

abbrev QueryConnectionResponse := Nat

abbrev QueryChannelResponse := Nat

abbrev QueryChannelsResponse := Nat

abbrev QueryPacketCommitmentResponse := Nat

abbrev QueryPacketAcknowledgementResponse := Nat

abbrev QueryNextSequenceReceiveResponse := Nat

abbrev QueryPacketReceiptResponse := Nat

/-- Opaque payloads of the errors of modules outside this slice. -/
abbrev Ics02ClientError := String

abbrev ValidationError := String

abbrev HeightError := String

abbrev ProofError := String

abbrev SignerError := String

abbrev Version := String

/-- parachain::error::Error, the typed error of the one concrete backend
(external to this slice). -/
abbrev ParachainError := String

/-- An anyhow::Error produced inside the parachain crate (external). -/
abbrev ParachainAnyhowError := String

/-- A protobuf Any envelope: type URL plus serialized body (spec section 6). -/
structure ProtoAny where
  type_url : String
  value : List Nat
deriving DecidableEq

/-- ibc Height: pair of revision number and revision height. -/
structure Height where
  revision_number : Nat
  revision_height : Nat
deriving DecidableEq

/-- Display of a Height, "revision_number-revision_height" (ics02 height,
external to this slice). -/
def Height.display (h : Height) : String :=
  toString h.revision_number ++ "-" ++ toString h.revision_height

/-- Strict lexicographic order on heights (spec section 3). -/
def Height.lt (a b : Height) : Bool :=
  a.revision_number < b.revision_number ||
    (a.revision_number == b.revision_number && a.revision_height < b.revision_height)

/-! ## ics03_connection error module

`ErrorDetail` transcribes the variant list of `define_error! { Error { ... } }`
in ibc/modules/src/core/ics03_connection/error.rs: one constructor per
variant, carrying exactly the declared context fields (in `{ ... }`) and the
embedded source errors (in `[ ... ]`), in source order. -/

inductive ErrorDetail where
  | Ics02Client (source : Ics02ClientError)
  | InvalidState (state : Int)
  | ConnectionExistsAlready (connection_id : ConnectionId)
  | ConnectionMismatch (connection_id : ConnectionId)
  | InvalidConsensusHeight (target_height : Height) (currrent_height : Height)
  | StaleConsensusHeight (target_height : Height) (oldest_height : Height)
  | InvalidIdentifier (source : ValidationError)
  | InvalidPacketHeight (source : HeightError)
  | EmptyProtoConnectionEnd
  | EmptyVersions
  | EmptyFeatures
  | NoCommonVersion
  | VersionNotSupported (version : Version)
  | InvalidAddress
  | MissingProofHeight
  | MissingConsensusHeight
  | InvalidProof (source : ProofError)
  | VerifyConnectionState (source : Ics02ClientError)
  | Signer (source : SignerError)
  | ConnectionNotFound (connection_id : ConnectionId)
  | InvalidCounterparty
  | ConnectionIdMismatch (connection_id : ConnectionId)
      (counterparty_connection_id : ConnectionId)
  | MissingCounterparty
  | MissingCounterpartyPrefix
  | NullClientProof
  | FrozenClient (client_id : ClientId)
  | ConnectionVerificationFailure
  | ConsensusStateVerificationFailure (height : Height) (source : Ics02ClientError)
  | ClientStateVerificationFailure (client_id : ClientId) (source : Ics02ClientError)
  | ImplementationSpecific (reason : String)
deriving DecidableEq

/-- The display message of each variant, transcribing the format closure
(`| e | { format_args!(...) }`) written for it in error.rs, including the
source file's own wording and typos. -/
def ErrorDetail.message : ErrorDetail → String
  | .Ics02Client _ => "ics02 client error"
  | .InvalidState s => "connection state is unknown: " ++ toString s
  | .ConnectionExistsAlready cid =>
      "connection exists (was initialized) already: " ++ cid
  | .ConnectionMismatch cid =>
      "connection end for identifier " ++ cid ++ " was never initialized"
  | .InvalidConsensusHeight th ch =>
      "consensus height claimed by the client on the other party is too advanced: "
        ++ th.display ++ " (host chain current height: " ++ ch.display ++ ")"
  | .StaleConsensusHeight th oh =>
      "consensus height claimed by the client on the other party has been pruned: "
        ++ th.display ++ " (host chain oldest height: " ++ oh.display ++ ")"
  | .InvalidIdentifier _ => "identifier error"
  | .InvalidPacketHeight _ => "Invalid packet height value"
  | .EmptyProtoConnectionEnd =>
      "ConnectionEnd domain object could not be constructed out of empty proto object"
  | .EmptyVersions => "empty supported versions"
  | .EmptyFeatures => "empty supported features"
  | .NoCommonVersion => "no common version"
  | .VersionNotSupported v => "version \"" ++ v ++ "\" not supported"
  | .InvalidAddress => "invalid address"
  | .MissingProofHeight => "missing proof height"
  | .MissingConsensusHeight => "missing consensus height"
  | .InvalidProof _ => "invalid connection proof"
  | .VerifyConnectionState _ => "error verifying connnection state"
  | .Signer _ => "invalid signer"
  | .ConnectionNotFound cid =>
      "no connection was found for the previous connection id provided " ++ cid
  | .InvalidCounterparty => "invalid signer"
  | .ConnectionIdMismatch cid ccid =>
      "counterparty chosen connection id " ++ cid
        ++ " is different than the connection id " ++ ccid
  | .MissingCounterparty => "missing counterparty"
  | .MissingCounterpartyPrefix => "missing counterparty prefix"
  | .NullClientProof => "client proof must be present"
  | .FrozenClient cid => "the client id does not match any client state: " ++ cid
  | .ConnectionVerificationFailure => "the connection proof verification failed"
  | .ConsensusStateVerificationFailure h _ =>
      "the consensus proof verification failed (height: " ++ h.display ++ ")"
  | .ClientStateVerificationFailure cid _ =>
      "the client state proof verification failed for client id " ++ cid
  | .ImplementationSpecific r => "implementation specific error: " ++ r

/-- The ics02 client error a variant embeds as its causal source: exactly the
variants declared with `[ client_error::Error ]` in error.rs carry one. -/
def ErrorDetail.clientErrorSource : ErrorDetail → Option Ics02ClientError
  | .Ics02Client e => some e
  | .VerifyConnectionState e => some e
  | .ConsensusStateVerificationFailure _ e => some e
  | .ClientStateVerificationFailure _ e => some e
  | _ => none

/-- True iff the variant carries nothing but one caller-supplied String that
the message prints verbatim: in error.rs only `ImplementationSpecific
{ reason: String }` is such a variant. -/
def ErrorDetail.isBareMessage : ErrorDetail → Bool
  | .ImplementationSpecific _ => true
  | _ => false

/-! ## hyperspace chain.rs: the chain-backend union

`ParachainClient` (crate `parachain`, external to this slice) is embedded as
a record of its methods, one field per method that
hyperspace/core/src/chain.rs dispatches to; streams become lists, async
methods pure functions, `Result` becomes `Except`. -/

structure ParachainClient where
  query_latest_ibc_events :
    FinalityEvent → Counterparty →
      Except ParachainAnyhowError (ProtoAny × List IbcEvent × UpdateType)
  ibc_events : List IbcEvent
  query_client_consensus :
    Height → ClientId → Height → Except ParachainError QueryConsensusStateResponse
  query_client_state : Height → ClientId → Except ParachainError QueryClientStateResponse
  query_connection_end : Height → ConnectionId → Except ParachainError QueryConnectionResponse
  query_channel_end :
    Height → ChannelId → PortId → Except ParachainError QueryChannelResponse
  query_proof : Height → List (List Nat) → Except ParachainError (List Nat)
  query_packet_commitment :
    Height → PortId → ChannelId → Nat → Except ParachainError QueryPacketCommitmentResponse
  query_packet_acknowledgement :
    Height → PortId → ChannelId → Nat →
      Except ParachainError QueryPacketAcknowledgementResponse
  query_next_sequence_recv :
    Height → PortId → ChannelId → Except ParachainError QueryNextSequenceReceiveResponse
  query_packet_receipt :
    Height → PortId → ChannelId → Nat → Except ParachainError QueryPacketReceiptResponse
  latest_height_and_timestamp : Except ParachainError (Height × Timestamp)
  query_packet_commitments :
    Height → ChannelId → PortId → Except ParachainError (List Nat)
  query_packet_acknowledgements :
    Height → ChannelId → PortId → Except ParachainError (List Nat)
  query_unreceived_packets :
    Height → ChannelId → PortId → List Nat → Except ParachainError (List Nat)
  query_unreceived_acknowledgements :
    Height → ChannelId → PortId → List Nat → Except ParachainError (List Nat)
  channel_whitelist : List (ChannelId × PortId)
  query_connection_channels :
    Height → ConnectionId → Except ParachainError QueryChannelsResponse
  query_send_packets :
    ChannelId → PortId → List Nat → Except ParachainError (List PacketInfo)
  query_recv_packets :
    ChannelId → PortId → List Nat → Except ParachainError (List PacketInfo)
  expected_block_time : Duration
  query_client_update_time_and_height :
    ClientId → Height → Except ParachainError (Height × Timestamp)
  query_host_consensus_state_proof :
    Height → Except ParachainError (Option (List Nat))
  query_ibc_balance : Except ParachainError (List PrefixedCoin)
  connectionPrefix : CommitmentPrefixBytes
  client_id : ClientId
  connection_id : ConnectionId
  client_type : ClientType
  query_timestamp_at : Nat → Except ParachainError Nat
  query_clients : Except ParachainError (List ClientId)
  query_channels : Except ParachainError (List (ChannelId × PortId))
  query_connection_using_client :
    Nat → String → Except ParachainError (List IdentifiedConnection)
  is_update_required : Nat → Nat → Bool
  initialize_client_state : Except ParachainError (AnyClientState × AnyConsensusState)
  query_client_id_from_tx_hash : H256 → Option H256 → Except ParachainError ClientId
  account_id : Signer
  name : String
  block_max_weight : Nat
  estimate_weight : List ProtoAny → Except ParachainError Nat
  finality_notifications : List FinalityEvent
  submit : List ProtoAny → Except ParachainError (H256 × Option H256)

/-- pub enum AnyChain { Parachain(ParachainClient<DefaultConfig>) } -/
inductive AnyChain where
  | Parachain (c : ParachainClient)

/-- pub enum AnyFinalityEvent { Parachain(FinalityEvent) } -/
inductive AnyFinalityEvent where
  | Parachain (e : FinalityEvent)
deriving DecidableEq

/-- pub enum AnyError { Parachain(parachain::error::Error), Other(String) } -/
inductive AnyError where
  | Parachain (e : ParachainError)
  | Other (s : String)
deriving DecidableEq

/-- impl From(String) for AnyError: Self::Other(s). -/
def AnyError.fromString (s : String) : AnyError := AnyError.Other s

/-- anyhow::Error values that arise in chain.rs, tagged by the typed error
they were built from. -/
inductive AnyhowError where
  | ofAnyError (e : AnyError)
  | ofParachainError (e : ParachainError)
  | ofParachainAnyhow (e : ParachainAnyhowError)
deriving DecidableEq

/-- Outcome of a Rust body that may panic: a returned value, or a panic such
as `unreachable!()`. -/
inductive Panics (τ : Type) where
  | value (t : τ)
  | panic

/-- The two-arm `match self` at the head of every dispatch method on
AnyChain: the first arm binds the wrapped ParachainClient, the second is the
wildcard `_` arm. AnyChain has the single constructor Parachain, so
elaboration shows the first arm is always taken and the wildcard arm is
never evaluated. -/
def matchAnyChain {τ : Type} (x : AnyChain) (parachainArm : ParachainClient → τ)
    (wildcardArm : τ) : τ :=
  match x with
  | .Parachain c => parachainArm c

/-- The body of the wildcard arm of every dispatch method in chain.rs:
`_ => unreachable!()`, an unconditional panic (not an error value). -/
def unreachableArm (τ : Type) : Panics τ := Panics.panic

/-- The ParachainClient wrapped by an AnyChain value. -/
def AnyChain.underlying : AnyChain → ParachainClient
  | .Parachain c => c

/-- ibc::downcast!(finality_event => AnyFinalityEvent::Parachain). -/
def AnyFinalityEvent.downcastParachain : AnyFinalityEvent → Option FinalityEvent
  | .Parachain e => some e

/-! Each dispatch method of `impl IbcProvider for AnyChain`,
`impl KeyProvider for AnyChain` and `impl Chain for AnyChain`, in source
order. `.map_err(Into::into)` becomes `Except.mapError AnyError.Parachain`
(the From derive on AnyError::Parachain). -/

def AnyChain.query_latest_ibc_events (x : AnyChain) (finality_event : AnyFinalityEvent)
    (counterparty : Counterparty) :
    Panics (Except AnyhowError (ProtoAny × List IbcEvent × UpdateType)) :=
  matchAnyChain x
    (fun chain =>
      Panics.value
        (match AnyFinalityEvent.downcastParachain finality_event with
          | none =>
            Except.error (AnyhowError.ofAnyError (AnyError.Other "Invalid finality event type"))
          | some fe =>
            (chain.query_latest_ibc_events fe counterparty).mapError
              AnyhowError.ofParachainAnyhow))
    (unreachableArm _)

def AnyChain.ibc_events (x : AnyChain) : Panics (List IbcEvent) :=
  matchAnyChain x (fun chain => Panics.value chain.ibc_events) (unreachableArm _)

def AnyChain.query_client_consensus (x : AnyChain) (a : Height) (client_id : ClientId)
    (consensus_height : Height) : Panics (Except AnyError QueryConsensusStateResponse) :=
  matchAnyChain x
    (fun chain =>
      Panics.value
        ((chain.query_client_consensus a client_id consensus_height).mapError
          AnyError.Parachain))
    (unreachableArm _)

def AnyChain.query_client_state (x : AnyChain) (a : Height) (client_id : ClientId) :
    Panics (Except AnyError QueryClientStateResponse) :=
  matchAnyChain x
    (fun chain =>
      Panics.value ((chain.query_client_state a client_id).mapError AnyError.Parachain))
    (unreachableArm _)

def AnyChain.query_connection_end (x : AnyChain) (a : Height) (connection_id : ConnectionId) :
    Panics (Except AnyError QueryConnectionResponse) :=
  matchAnyChain x
    (fun chain =>
      Panics.value ((chain.query_connection_end a connection_id).mapError AnyError.Parachain))
    (unreachableArm _)

def AnyChain.query_channel_end (x : AnyChain) (a : Height) (channel_id : ChannelId)
    (port_id : PortId) : Panics (Except AnyError QueryChannelResponse) :=
  matchAnyChain x
    (fun chain =>
      Panics.value
        ((chain.query_channel_end a channel_id port_id).mapError AnyError.Parachain))
    (unreachableArm _)

def AnyChain.query_proof (x : AnyChain) (a : Height) (keys : List (List Nat)) :
    Panics (Except AnyError (List Nat)) :=
  matchAnyChain x
    (fun chain => Panics.value ((chain.query_proof a keys).mapError AnyError.Parachain))
    (unreachableArm _)

def AnyChain.query_packet_commitment (x : AnyChain) (a : Height) (port_id : PortId)
    (channel_id : ChannelId) (seq : Nat) :
    Panics (Except AnyError QueryPacketCommitmentResponse) :=
  matchAnyChain x
    (fun chain =>
      Panics.value
        ((chain.query_packet_commitment a port_id channel_id seq).mapError
          AnyError.Parachain))
    (unreachableArm _)

def AnyChain.query_packet_acknowledgement (x : AnyChain) (a : Height) (port_id : PortId)
    (channel_id : ChannelId) (seq : Nat) :
    Panics (Except AnyError QueryPacketAcknowledgementResponse) :=
  matchAnyChain x
    (fun chain =>
      Panics.value
        ((chain.query_packet_acknowledgement a port_id channel_id seq).mapError
          AnyError.Parachain))
    (unreachableArm _)

def AnyChain.query_next_sequence_recv (x : AnyChain) (a : Height) (port_id : PortId)
    (channel_id : ChannelId) : Panics (Except AnyError QueryNextSequenceReceiveResponse) :=
  matchAnyChain x
    (fun chain =>
      Panics.value
        ((chain.query_next_sequence_recv a port_id channel_id).mapError AnyError.Parachain))
    (unreachableArm _)

def AnyChain.query_packet_receipt (x : AnyChain) (a : Height) (port_id : PortId)
    (channel_id : ChannelId) (seq : Nat) :
    Panics (Except AnyError QueryPacketReceiptResponse) :=
  matchAnyChain x
    (fun chain =>
      Panics.value
        ((chain.query_packet_receipt a port_id channel_id seq).mapError AnyError.Parachain))
    (unreachableArm _)

def AnyChain.latest_height_and_timestamp (x : AnyChain) :
    Panics (Except AnyError (Height × Timestamp)) :=
  matchAnyChain x
    (fun chain =>
      Panics.value (chain.latest_height_and_timestamp.mapError AnyError.Parachain))
    (unreachableArm _)

def AnyChain.query_packet_commitments (x : AnyChain) (a : Height) (channel_id : ChannelId)
    (port_id : PortId) : Panics (Except AnyError (List Nat)) :=
  matchAnyChain x
    (fun chain =>
      Panics.value
        ((chain.query_packet_commitments a channel_id port_id).mapError AnyError.Parachain))
    (unreachableArm _)

def AnyChain.query_packet_acknowledgements (x : AnyChain) (a : Height)
    (channel_id : ChannelId) (port_id : PortId) : Panics (Except AnyError (List Nat)) :=
  matchAnyChain x
    (fun chain =>
      Panics.value
        ((chain.query_packet_acknowledgements a channel_id port_id).mapError
          AnyError.Parachain))
    (unreachableArm _)

def AnyChain.query_unreceived_packets (x : AnyChain) (a : Height) (channel_id : ChannelId)
    (port_id : PortId) (seqs : List Nat) : Panics (Except AnyError (List Nat)) :=
  matchAnyChain x
    (fun chain =>
      Panics.value
        ((chain.query_unreceived_packets a channel_id port_id seqs).mapError
          AnyError.Parachain))
    (unreachableArm _)

def AnyChain.query_unreceived_acknowledgements (x : AnyChain) (a : Height)
    (channel_id : ChannelId) (port_id : PortId) (seqs : List Nat) :
    Panics (Except AnyError (List Nat)) :=
  matchAnyChain x
    (fun chain =>
      Panics.value
        ((chain.query_unreceived_acknowledgements a channel_id port_id seqs).mapError
          AnyError.Parachain))
    (unreachableArm _)

def AnyChain.channel_whitelist (x : AnyChain) : Panics (List (ChannelId × PortId)) :=
  matchAnyChain x (fun chain => Panics.value chain.channel_whitelist) (unreachableArm _)

def AnyChain.query_connection_channels (x : AnyChain) (a : Height)
    (connection_id : ConnectionId) : Panics (Except AnyError QueryChannelsResponse) :=
  matchAnyChain x
    (fun chain =>
      Panics.value
        ((chain.query_connection_channels a connection_id).mapError AnyError.Parachain))
    (unreachableArm _)

def AnyChain.query_send_packets (x : AnyChain) (channel_id : ChannelId) (port_id : PortId)
    (seqs : List Nat) : Panics (Except AnyError (List PacketInfo)) :=
  matchAnyChain x
    (fun chain =>
      Panics.value
        ((chain.query_send_packets channel_id port_id seqs).mapError AnyError.Parachain))
    (unreachableArm _)

def AnyChain.query_recv_packets (x : AnyChain) (channel_id : ChannelId) (port_id : PortId)
    (seqs : List Nat) : Panics (Except AnyError (List PacketInfo)) :=
  matchAnyChain x
    (fun chain =>
      Panics.value
        ((chain.query_recv_packets channel_id port_id seqs).mapError AnyError.Parachain))
    (unreachableArm _)

def AnyChain.expected_block_time (x : AnyChain) : Panics Duration :=
  matchAnyChain x (fun chain => Panics.value chain.expected_block_time) (unreachableArm _)

def AnyChain.query_client_update_time_and_height (x : AnyChain) (client_id : ClientId)
    (client_height : Height) : Panics (Except AnyError (Height × Timestamp)) :=
  matchAnyChain x
    (fun chain =>
      Panics.value
        ((chain.query_client_update_time_and_height client_id client_height).mapError
          AnyError.Parachain))
    (unreachableArm _)

def AnyChain.query_host_consensus_state_proof (x : AnyChain) (height : Height) :
    Panics (Except AnyError (Option (List Nat))) :=
  matchAnyChain x
    (fun chain =>
      Panics.value
        ((chain.query_host_consensus_state_proof height).mapError AnyError.Parachain))
    (unreachableArm _)

def AnyChain.query_ibc_balance (x : AnyChain) :
    Panics (Except AnyError (List PrefixedCoin)) :=
  matchAnyChain x
    (fun chain => Panics.value (chain.query_ibc_balance.mapError AnyError.Parachain))
    (unreachableArm _)

/-- fn connection_prefix(&self) -> CommitmentPrefix (field embedded as
connectionPrefix). -/
def AnyChain.connectionPrefix (x : AnyChain) : Panics CommitmentPrefixBytes :=
  matchAnyChain x (fun chain => Panics.value chain.connectionPrefix) (unreachableArm _)

def AnyChain.client_id (x : AnyChain) : Panics ClientId :=
  matchAnyChain x (fun chain => Panics.value chain.client_id) (unreachableArm _)

def AnyChain.connection_id (x : AnyChain) : Panics ConnectionId :=
  matchAnyChain x (fun chain => Panics.value chain.connection_id) (unreachableArm _)

def AnyChain.client_type (x : AnyChain) : Panics ClientType :=
  matchAnyChain x (fun chain => Panics.value chain.client_type) (unreachableArm _)

def AnyChain.query_timestamp_at (x : AnyChain) (block_number : Nat) :
    Panics (Except AnyError Nat) :=
  matchAnyChain x
    (fun chain =>
      Panics.value ((chain.query_timestamp_at block_number).mapError AnyError.Parachain))
    (unreachableArm _)

def AnyChain.query_clients (x : AnyChain) : Panics (Except AnyError (List ClientId)) :=
  matchAnyChain x
    (fun chain => Panics.value (chain.query_clients.mapError AnyError.Parachain))
    (unreachableArm _)

def AnyChain.query_channels (x : AnyChain) :
    Panics (Except AnyError (List (ChannelId × PortId))) :=
  matchAnyChain x
    (fun chain => Panics.value (chain.query_channels.mapError AnyError.Parachain))
    (unreachableArm _)

def AnyChain.query_connection_using_client (x : AnyChain) (height : Nat)
    (client_id : String) : Panics (Except AnyError (List IdentifiedConnection)) :=
  matchAnyChain x
    (fun chain =>
      Panics.value
        ((chain.query_connection_using_client height client_id).mapError AnyError.Parachain))
    (unreachableArm _)

def AnyChain.is_update_required (x : AnyChain) (latest_height : Nat)
    (latest_client_height_on_counterparty : Nat) : Panics Bool :=
  matchAnyChain x
    (fun chain =>
      Panics.value
        (chain.is_update_required latest_height latest_client_height_on_counterparty))
    (unreachableArm _)

def AnyChain.initialize_client_state (x : AnyChain) :
    Panics (Except AnyError (AnyClientState × AnyConsensusState)) :=
  matchAnyChain x
    (fun chain => Panics.value (chain.initialize_client_state.mapError AnyError.Parachain))
    (unreachableArm _)

def AnyChain.query_client_id_from_tx_hash (x : AnyChain) (tx_hash : H256)
    (block_hash : Option H256) : Panics (Except AnyError ClientId) :=
  matchAnyChain x
    (fun chain =>
      Panics.value
        ((chain.query_client_id_from_tx_hash tx_hash block_hash).mapError AnyError.Parachain))
    (unreachableArm _)

/-- impl KeyProvider for AnyChain: fn account_id. -/
def AnyChain.account_id (x : AnyChain) : Panics Signer :=
  matchAnyChain x (fun parachain => Panics.value parachain.account_id) (unreachableArm _)

/-- impl Chain for AnyChain: fn name. -/
def AnyChain.name (x : AnyChain) : Panics String :=
  matchAnyChain x (fun chain => Panics.value chain.name) (unreachableArm _)

def AnyChain.block_max_weight (x : AnyChain) : Panics Nat :=
  matchAnyChain x (fun chain => Panics.value chain.block_max_weight) (unreachableArm _)

def AnyChain.estimate_weight (x : AnyChain) (msg : List ProtoAny) :
    Panics (Except AnyError Nat) :=
  matchAnyChain x
    (fun chain => Panics.value ((chain.estimate_weight msg).mapError AnyError.Parachain))
    (unreachableArm _)

/-- fn finality_notifications: the stream of parachain finality events mapped
into AnyFinalityEvent by `.map(|x| x.into())` (the From derive). -/
def AnyChain.finality_notifications (x : AnyChain) : Panics (List AnyFinalityEvent) :=
  matchAnyChain x
    (fun chain =>
      Panics.value (chain.finality_notifications.map AnyFinalityEvent.Parachain))
    (unreachableArm _)

def AnyChain.submit (x : AnyChain) (messages : List ProtoAny) :
    Panics (Except AnyError (H256 × Option H256)) :=
  matchAnyChain x
    (fun chain => Panics.value ((chain.submit messages).mapError AnyError.Parachain))
    (unreachableArm _)

/-! ## AnyConfig and into_client -/

/-- parachain::ParachainClientConfig (external payload). -/
abbrev ParachainClientConfig := Nat

/-- pub enum AnyConfig { Parachain(parachain::ParachainClientConfig) } -/
inductive AnyConfig where
  | Parachain (config : ParachainClientConfig)
deriving DecidableEq

/-- The configuration an AnyConfig value wraps. -/
def AnyConfig.configOf : AnyConfig → ParachainClientConfig
  | .Parachain config => config

/-- AnyConfig::into_client, parameterized by the external constructor
`ParachainClient::new` (crate `parachain`, not in this slice), whose error the
`?` operator converts into anyhow::Error. -/
def AnyConfig.into_client
    (new : ParachainClientConfig → Except ParachainError ParachainClient) :
    AnyConfig → Except AnyhowError AnyChain
  | .Parachain config =>
    match new config with
    | .error e => Except.error (AnyhowError.ofParachainError e)
    | .ok c => Except.ok (AnyChain.Parachain c)

/-! ## Light-client and connection-handshake frozen-client gate

The handshake and verification handlers consuming the ics03 errors are part
of the repository but outside this source slice; the definitions below are
modelled from the spec and carry that mark. -/

/-- Modelled from the spec: ClientState (section 3) — chain identifier,
latest verified height, optional frozen height (trust parameters elided as
they play no role in the frozen-client gate). The client-state record itself
lives in the ics02 client module, which is not part of this slice. -/
structure ClientState where
  chain_id : String
  latest_height : Height
  frozen_height : Option Height
deriving DecidableEq

/-- True iff the AnyError variant carries nothing but one caller-supplied
String, which its display attribute prints verbatim: the Other(String)
catch-all is such a variant; the Parachain variant wraps the backend's typed
error. -/
def AnyError.isBareMessage : AnyError → Bool
  | .Parachain _ => false
  | .Other _ => true

/-- Modelled from the spec: a light-client verification call against a hosted
client (sections 4.1 and 8) — once ClientState.frozen_height is set the call
fails deterministically with the FrozenClient error, regardless of proof
validity; otherwise it succeeds or fails on the proof alone. The verifier
implementation is not part of this slice. -/
def verifyCall (client_id : ClientId) (cs : ClientState) (proof_ok : Bool) :
    Except ErrorDetail Unit :=
  match cs.frozen_height with
  | some _ => Except.error (ErrorDetail.FrozenClient client_id)
  | none =>
    if proof_ok then Except.ok ()
    else Except.error ErrorDetail.ConnectionVerificationFailure

/-- Modelled from the spec: a connection-handshake message as section 4.2
sees it — optional proof metadata, the consensus height it claims, and
whether its proofs verify. The message types live outside this slice. -/
structure ConnHandshakeMsg where
  proof_height : Option Height
  consensus_height : Option Height
  proof_ok : Bool
deriving DecidableEq

/-- Modelled from the spec: one connection-handshake step against a hosted
client (section 4.2) — a frozen client is rejected outright; then the
MissingProofHeight and MissingConsensusHeight checks run before the proof
metadata is dereferenced; then the claimed consensus height is checked
against the host's current and oldest tracked heights; finally the proofs
are verified. The handshake handlers are not part of this slice. -/
def connHandshakeStep (client_id : ClientId) (cs : ClientState)
    (host_current : Height) (host_oldest : Height) (msg : ConnHandshakeMsg) :
    Except ErrorDetail Unit :=
  if cs.frozen_height.isSome then Except.error (ErrorDetail.FrozenClient client_id)
  else
    match msg.proof_height with
    | none => Except.error ErrorDetail.MissingProofHeight
    | some _ =>
      match msg.consensus_height with
      | none => Except.error ErrorDetail.MissingConsensusHeight
      | some claimed =>
        if Height.lt host_current claimed then
          Except.error (ErrorDetail.InvalidConsensusHeight claimed host_current)
        else if Height.lt claimed host_oldest then
          Except.error (ErrorDetail.StaleConsensusHeight claimed host_oldest)
        else if msg.proof_ok then Except.ok ()
        else Except.error ErrorDetail.ConnectionVerificationFailure

/-! ## Theorems -/

/-- C1 counterexample: the claim says a dispatch whose scrutinee matches no
supported backend variant produces a defined "unsupported backend" error;
in chain.rs the wildcard arm of every dispatch method is `unreachable!()`,
an unconditional panic and not an error value. -/
theorem wildcard_arm_is_panic_not_error :
    unreachableArm (Except AnyError Unit) = Panics.panic
  ∧ (Panics.panic : Panics (Except AnyError Unit)) ≠
      Panics.value (Except.error (AnyError.Other "unsupported backend")) :=
  ⟨rfl, fun h => Panics.noConfusion h⟩

/-- C1 (amended): every dispatch method of AnyChain has a wildcard arm whose
body is `unreachable!()`, a panic rather than an "unsupported backend"
error, but the arm is dead code: AnyChain has exactly the Parachain variant,
so every dispatch takes the Parachain arm whatever the wildcard arm holds,
and no dispatch ever evaluates the panic. -/
theorem anyChain_dispatch_never_reaches_wildcard :
    (∀ (τ : Type) (x : AnyChain) (p : ParachainClient → τ) (w w' : τ),
        matchAnyChain x p w = p x.underlying ∧ matchAnyChain x p w = matchAnyChain x p w')
  ∧ (∀ (τ : Type), unreachableArm τ = Panics.panic) :=
  ⟨fun _ x _ _ _ => by cases x; exact ⟨rfl, rfl⟩, fun _ => rfl⟩

/-- C2: the seven connection error kinds named in the spec are seven distinct
variants of the ics03 connection error type: no two of them coincide, at any
choice of their context fields. -/
theorem connection_error_seven_distinct_kinds (c1 c2 c3 c4 c5 : ConnectionId)
    (h1 h2 h3 h4 : Height) :
    [ErrorDetail.ConnectionExistsAlready c1, ErrorDetail.ConnectionMismatch c2,
     ErrorDetail.ConnectionNotFound c3, ErrorDetail.ConnectionIdMismatch c4 c5,
     ErrorDetail.NoCommonVersion, ErrorDetail.InvalidConsensusHeight h1 h2,
     ErrorDetail.StaleConsensusHeight h3 h4].Pairwise (fun a b => a ≠ b) := by
  simp [List.pairwise_cons]

/-- C3 counterexample: AnyError has the catch-all variant Other(String) whose
entire payload is one bare message string (it is what carries the relayer's
"Invalid finality event type" failure), and the connection Error has the
variant ImplementationSpecific whose only field is a String reason. -/
theorem bare_message_variant_exists :
    AnyError.isBareMessage (AnyError.Other "Invalid finality event type") = true
  ∧ ErrorDetail.isBareMessage (ErrorDetail.ImplementationSpecific "storage error") = true :=
  ⟨rfl, rfl⟩

/-- C3 (amended): every variant of the connection Error and of AnyError is a
typed variant whose context fields are recoverable from the value, except
exactly AnyError::Other(String) and Error::ImplementationSpecific, each of
which conveys its failure only as one bare string. -/
theorem typed_errors_except_catch_alls :
    (∀ e : AnyError, AnyError.isBareMessage e = true ↔ ∃ s, e = AnyError.Other s)
  ∧ (∀ d : ErrorDetail,
      ErrorDetail.isBareMessage d = true ↔
        ∃ r, d = ErrorDetail.ImplementationSpecific r)
  ∧ (∀ c c' : ConnectionId,
      ErrorDetail.ConnectionExistsAlready c = ErrorDetail.ConnectionExistsAlready c' → c = c')
  ∧ (∀ i i' j j' : ConnectionId,
      ErrorDetail.ConnectionIdMismatch i j = ErrorDetail.ConnectionIdMismatch i' j' →
        i = i' ∧ j = j')
  ∧ (∀ a a' b b' : Height,
      ErrorDetail.InvalidConsensusHeight a b = ErrorDetail.InvalidConsensusHeight a' b' →
        a = a' ∧ b = b') := by
  refine ⟨fun e => ?_, fun d => ?_, fun c c' h => ?_, fun i i' j j' h => ?_,
    fun a a' b b' h => ?_⟩
  · cases e <;> simp [AnyError.isBareMessage]
  · cases d <;> simp [ErrorDetail.isBareMessage]
  · injection h
  · injection h with u v
    exact ⟨u, v⟩
  · injection h with u v
    exact ⟨u, v⟩

/-- C4 failing input: the Signer and InvalidCounterparty variants, built from
distinct conditions, render the identical message "invalid signer", and the
FrozenClient variant renders a message that describes a client-lookup
failure, not a frozen client. -/
theorem signer_and_invalid_counterparty_share_message :
    ErrorDetail.message (ErrorDetail.Signer "bad signature") = "invalid signer"
  ∧ ErrorDetail.message ErrorDetail.InvalidCounterparty = "invalid signer"
  ∧ ErrorDetail.message (ErrorDetail.Signer "bad signature") =
      ErrorDetail.message ErrorDetail.InvalidCounterparty
  ∧ ErrorDetail.message (ErrorDetail.FrozenClient "07-tendermint-0") =
      "the client id does not match any client state: 07-tendermint-0" :=
  ⟨rfl, rfl, rfl, rfl⟩

/-- C5: InvalidConsensusHeight carries the claimed (too advanced) consensus
height and the host's current height, StaleConsensusHeight carries the
claimed (pruned) height and the host's oldest tracked height, both pairs are
recoverable from the value, and each message reports exactly its two
heights. -/
theorem consensus_height_errors_carry_both_heights (th ch oh : Height) :
    (ErrorDetail.InvalidConsensusHeight th ch).message =
      "consensus height claimed by the client on the other party is too advanced: "
        ++ th.display ++ " (host chain current height: " ++ ch.display ++ ")"
  ∧ (ErrorDetail.StaleConsensusHeight th oh).message =
      "consensus height claimed by the client on the other party has been pruned: "
        ++ th.display ++ " (host chain oldest height: " ++ oh.display ++ ")"
  ∧ (∀ th' ch',
      ErrorDetail.InvalidConsensusHeight th ch = ErrorDetail.InvalidConsensusHeight th' ch' →
        th = th' ∧ ch = ch')
  ∧ (∀ th' oh',
      ErrorDetail.StaleConsensusHeight th oh = ErrorDetail.StaleConsensusHeight th' oh' →
        th = th' ∧ oh = oh') := by
  refine ⟨rfl, rfl, fun th' ch' h => ?_, fun th' oh' h => ?_⟩
  · injection h with u v
    exact ⟨u, v⟩
  · injection h with u v
    exact ⟨u, v⟩

/-- C6: the connection error aggregates ics02 client errors as causal
sources — Ics02Client and VerifyConnectionState embed exactly the client
error, ConsensusStateVerificationFailure embeds it together with the height,
ClientStateVerificationFailure together with the client id, and the extra
context fields are recoverable from the value. -/
theorem client_error_aggregation (e : Ics02ClientError) (h : Height) (cid : ClientId) :
    (ErrorDetail.Ics02Client e).clientErrorSource = some e
  ∧ (ErrorDetail.VerifyConnectionState e).clientErrorSource = some e
  ∧ (ErrorDetail.ConsensusStateVerificationFailure h e).clientErrorSource = some e
  ∧ (ErrorDetail.ClientStateVerificationFailure cid e).clientErrorSource = some e
  ∧ (∀ h' e',
      ErrorDetail.ConsensusStateVerificationFailure h e =
        ErrorDetail.ConsensusStateVerificationFailure h' e' → h = h' ∧ e = e')
  ∧ (∀ cid' e',
      ErrorDetail.ClientStateVerificationFailure cid e =
        ErrorDetail.ClientStateVerificationFailure cid' e' → cid = cid' ∧ e = e') := by
  refine ⟨rfl, rfl, rfl, rfl, fun h' e' hyp => ?_, fun cid' e' hyp => ?_⟩
  · injection hyp with u v
    exact ⟨u, v⟩
  · injection hyp with u v
    exact ⟨u, v⟩

/-- C7: once ClientState.frozen_height is set, a verification call against
that client fails deterministically with the FrozenClient error regardless
of proof validity, and a connection-handshake step against it is rejected
with the FrozenClient error carrying the offending client id, whatever the
message contains. -/
theorem frozen_client_rejected (client_id : ClientId) (cs : ClientState) (fh : Height)
    (proof_ok : Bool) (host_current host_oldest : Height) (msg : ConnHandshakeMsg)
    (hfrozen : cs.frozen_height = some fh) :
    verifyCall client_id cs proof_ok = Except.error (ErrorDetail.FrozenClient client_id)
  ∧ connHandshakeStep client_id cs host_current host_oldest msg =
      Except.error (ErrorDetail.FrozenClient client_id) := by
  constructor
  · unfold verifyCall
    rw [hfrozen]
  · unfold connHandshakeStep
    rw [hfrozen]
    simp

/-- C7 witness: a concrete frozen client, rejected by both the verification
call and the handshake step. -/
theorem frozen_client_rejected_witness :
    verifyCall "07-tendermint-3"
        { chain_id := "chain-a", latest_height := ⟨0, 50⟩, frozen_height := some ⟨0, 40⟩ }
        true
      = Except.error (ErrorDetail.FrozenClient "07-tendermint-3")
  ∧ connHandshakeStep "07-tendermint-3"
        { chain_id := "chain-a", latest_height := ⟨0, 50⟩, frozen_height := some ⟨0, 40⟩ }
        ⟨0, 100⟩ ⟨0, 10⟩
        { proof_height := some ⟨0, 99⟩, consensus_height := some ⟨0, 98⟩, proof_ok := true }
      = Except.error (ErrorDetail.FrozenClient "07-tendermint-3") :=
  frozen_client_rejected "07-tendermint-3" _ ⟨0, 40⟩ true ⟨0, 100⟩ ⟨0, 10⟩ _ rfl

/-- C8: AnyChain has exactly the Parachain variant, so every IbcProvider,
KeyProvider and Chain dispatch method on AnyChain returns a value — never
the panic of the wildcard arm — and that value is the corresponding method
of the wrapped ParachainClient, with errors converted into AnyError (or, for
query_latest_ibc_events, into the anyhow error). -/
theorem anyChain_dispatch_delegates (x : AnyChain) :
    (∀ fe cp, AnyChain.query_latest_ibc_events x (AnyFinalityEvent.Parachain fe) cp =
      Panics.value ((x.underlying.query_latest_ibc_events fe cp).mapError
        AnyhowError.ofParachainAnyhow))
  ∧ AnyChain.ibc_events x = Panics.value x.underlying.ibc_events
  ∧ (∀ a cid ch, AnyChain.query_client_consensus x a cid ch =
      Panics.value ((x.underlying.query_client_consensus a cid ch).mapError AnyError.Parachain))
  ∧ (∀ a cid, AnyChain.query_client_state x a cid =
      Panics.value ((x.underlying.query_client_state a cid).mapError AnyError.Parachain))
  ∧ (∀ a cid, AnyChain.query_connection_end x a cid =
      Panics.value ((x.underlying.query_connection_end a cid).mapError AnyError.Parachain))
  ∧ (∀ a cid pid, AnyChain.query_channel_end x a cid pid =
      Panics.value ((x.underlying.query_channel_end a cid pid).mapError AnyError.Parachain))
  ∧ (∀ a keys, AnyChain.query_proof x a keys =
      Panics.value ((x.underlying.query_proof a keys).mapError AnyError.Parachain))
  ∧ (∀ a pid cid seq, AnyChain.query_packet_commitment x a pid cid seq =
      Panics.value ((x.underlying.query_packet_commitment a pid cid seq).mapError
        AnyError.Parachain))
  ∧ (∀ a pid cid seq, AnyChain.query_packet_acknowledgement x a pid cid seq =
      Panics.value ((x.underlying.query_packet_acknowledgement a pid cid seq).mapError
        AnyError.Parachain))
  ∧ (∀ a pid cid, AnyChain.query_next_sequence_recv x a pid cid =
      Panics.value ((x.underlying.query_next_sequence_recv a pid cid).mapError
        AnyError.Parachain))
  ∧ (∀ a pid cid seq, AnyChain.query_packet_receipt x a pid cid seq =
      Panics.value ((x.underlying.query_packet_receipt a pid cid seq).mapError
        AnyError.Parachain))
  ∧ AnyChain.latest_height_and_timestamp x =
      Panics.value (x.underlying.latest_height_and_timestamp.mapError AnyError.Parachain)
  ∧ (∀ a cid pid, AnyChain.query_packet_commitments x a cid pid =
      Panics.value ((x.underlying.query_packet_commitments a cid pid).mapError
        AnyError.Parachain))
  ∧ (∀ a cid pid, AnyChain.query_packet_acknowledgements x a cid pid =
      Panics.value ((x.underlying.query_packet_acknowledgements a cid pid).mapError
        AnyError.Parachain))
  ∧ (∀ a cid pid seqs, AnyChain.query_unreceived_packets x a cid pid seqs =
      Panics.value ((x.underlying.query_unreceived_packets a cid pid seqs).mapError
        AnyError.Parachain))
  ∧ (∀ a cid pid seqs, AnyChain.query_unreceived_acknowledgements x a cid pid seqs =
      Panics.value ((x.underlying.query_unreceived_acknowledgements a cid pid seqs).mapError
        AnyError.Parachain))
  ∧ AnyChain.channel_whitelist x = Panics.value x.underlying.channel_whitelist
  ∧ (∀ a cid, AnyChain.query_connection_channels x a cid =
      Panics.value ((x.underlying.query_connection_channels a cid).mapError AnyError.Parachain))
  ∧ (∀ cid pid seqs, AnyChain.query_send_packets x cid pid seqs =
      Panics.value ((x.underlying.query_send_packets cid pid seqs).mapError AnyError.Parachain))
  ∧ (∀ cid pid seqs, AnyChain.query_recv_packets x cid pid seqs =
      Panics.value ((x.underlying.query_recv_packets cid pid seqs).mapError AnyError.Parachain))
  ∧ AnyChain.expected_block_time x = Panics.value x.underlying.expected_block_time
  ∧ (∀ cid h, AnyChain.query_client_update_time_and_height x cid h =
      Panics.value ((x.underlying.query_client_update_time_and_height cid h).mapError
        AnyError.Parachain))
  ∧ (∀ h, AnyChain.query_host_consensus_state_proof x h =
      Panics.value ((x.underlying.query_host_consensus_state_proof h).mapError
        AnyError.Parachain))
  ∧ AnyChain.query_ibc_balance x =
      Panics.value (x.underlying.query_ibc_balance.mapError AnyError.Parachain)
  ∧ AnyChain.connectionPrefix x = Panics.value x.underlying.connectionPrefix
  ∧ AnyChain.client_id x = Panics.value x.underlying.client_id
  ∧ AnyChain.connection_id x = Panics.value x.underlying.connection_id
  ∧ AnyChain.client_type x = Panics.value x.underlying.client_type
  ∧ (∀ n, AnyChain.query_timestamp_at x n =
      Panics.value ((x.underlying.query_timestamp_at n).mapError AnyError.Parachain))
  ∧ AnyChain.query_clients x =
      Panics.value (x.underlying.query_clients.mapError AnyError.Parachain)
  ∧ AnyChain.query_channels x =
      Panics.value (x.underlying.query_channels.mapError AnyError.Parachain)
  ∧ (∀ n cid, AnyChain.query_connection_using_client x n cid =
      Panics.value ((x.underlying.query_connection_using_client n cid).mapError
        AnyError.Parachain))
  ∧ (∀ m n, AnyChain.is_update_required x m n =
      Panics.value (x.underlying.is_update_required m n))
  ∧ AnyChain.initialize_client_state x =
      Panics.value (x.underlying.initialize_client_state.mapError AnyError.Parachain)
  ∧ (∀ tx bh, AnyChain.query_client_id_from_tx_hash x tx bh =
      Panics.value ((x.underlying.query_client_id_from_tx_hash tx bh).mapError
        AnyError.Parachain))
  ∧ AnyChain.account_id x = Panics.value x.underlying.account_id
  ∧ AnyChain.name x = Panics.value x.underlying.name
  ∧ AnyChain.block_max_weight x = Panics.value x.underlying.block_max_weight
  ∧ (∀ msg, AnyChain.estimate_weight x msg =
      Panics.value ((x.underlying.estimate_weight msg).mapError AnyError.Parachain))
  ∧ AnyChain.finality_notifications x =
      Panics.value (x.underlying.finality_notifications.map AnyFinalityEvent.Parachain)
  ∧ (∀ msgs, AnyChain.submit x msgs =
      Panics.value ((x.underlying.submit msgs).mapError AnyError.Parachain)) := by
  cases x with
  | Parachain c =>
    refine ⟨?_, ?_, ?_, ?_, ?_, ?_, ?_, ?_, ?_, ?_, ?_, ?_, ?_, ?_, ?_, ?_, ?_, ?_, ?_,
      ?_, ?_, ?_, ?_, ?_, ?_, ?_, ?_, ?_, ?_, ?_, ?_, ?_, ?_, ?_, ?_, ?_, ?_, ?_, ?_,
      ?_, ?_⟩ <;> (intros; rfl)

/-- C9: AnyFinalityEvent has exactly the Parachain variant, so the downcast
inside AnyChain::query_latest_ibc_events always succeeds and the function
never returns the AnyError::Other("Invalid finality event type") error
branch, for any input. -/
theorem query_latest_ibc_events_downcast_never_fails (x : AnyChain)
    (fe : AnyFinalityEvent) (cp : Counterparty) :
    AnyChain.query_latest_ibc_events x fe cp ≠
      Panics.value (Except.error
        (AnyhowError.ofAnyError (AnyError.Other "Invalid finality event type"))) := by
  cases x with
  | Parachain c =>
    cases fe with
    | Parachain e =>
      cases hq : c.query_latest_ibc_events e cp <;>
        simp [AnyChain.query_latest_ibc_events, matchAnyChain,
          AnyFinalityEvent.downcastParachain, Except.mapError, hq]

/-- C10: AnyConfig::into_client maps its one variant through the external
constructor ParachainClient::new — on success it returns
AnyChain::Parachain of the client built from exactly the wrapped config, and
otherwise it propagates the construction error; there is no other outcome
and no panic path. -/
theorem into_client_delegates
    (new : ParachainClientConfig → Except ParachainError ParachainClient)
    (cfg : AnyConfig) :
    AnyConfig.into_client new cfg =
      ((new cfg.configOf).map AnyChain.Parachain).mapError AnyhowError.ofParachainError := by
  cases cfg with
  | Parachain config =>
    cases hq : new config <;>
      simp [AnyConfig.into_client, AnyConfig.configOf, hq, Except.map, Except.mapError]

end Centauri
